import Mathlib

/-!
Verification of the shuttle deployment control plane against its
natural-language specification.  The Rust source is shallowly embedded:
pure functions become Lean functions, the HTTP handlers become functions
from their inputs (and oracles for their effects) to `Except` results,
and the CLI request builders become records describing the request each
CLI operation sends.
-/

namespace Shuttle

/-- Deployment states as exposed to API clients.  The Rust enum
`DeploymentStateMeta` lives in the `shuttle_common` crate, which is not in
the repository snapshot; the variants are modelled from the spec's state
list (QUEUED | BUILDING | BUILT | LOADING | DEPLOYED | ERROR | DELETED)
and from the variants the CLI matches on (`Deployed`, `Error(_)`). -/
inductive DeploymentStateMeta where
  | Queued
  | Building
  | Built
  | Loading
  | Deployed
  | Error (message : String)
  | Deleted
  deriving DecidableEq, Repr

/-- Connection info of a provisioned database.  Modelled from the spec:
`DatabaseInfo = { engine, username, password, database_name, port,
address_private, address_public }` (the Rust `DatabaseReadyInfo` lives in
`shuttle_common`, not in the snapshot). -/
structure DatabaseReadyInfo where
  engine : String
  username : String
  password : String
  database_name : String
  port : Nat
  address_private : String
  address_public : String
  deriving DecidableEq, Repr

/-- Modelled from the spec: `DatabaseReadyInfo::connection_string_private`
(in `shuttle_common`, not in the snapshot) renders the private connection
string from the database info fields.  The exact format is irrelevant to
the claims; only that the handler connects to this string matters. -/
def connection_string_private (info : DatabaseReadyInfo) : String :=
  "postgres://" ++ info.username ++ ":" ++ info.password ++ "@"
    ++ info.address_private ++ ":" ++ toString info.port
    ++ "/" ++ info.database_name

/-- A deployment's public metadata.  Modelled from the spec's
`DeploymentMeta` JSON shape (the Rust struct lives in `shuttle_common`,
not in the snapshot): id, project_name, state, state_error, host,
build_logs, runtime_logs, database_deployment, created_at. -/
structure DeploymentMeta where
  id : Nat
  project_name : String
  state : DeploymentStateMeta
  state_error : Option String
  host : String
  build_logs : Option String
  runtime_logs : List (String × String)
  database_deployment : Option DatabaseReadyInfo
  created_at : String
  deriving DecidableEq, Repr

/-! ## CLI client (src/cargo-shuttle/src/client.rs) -/

/-- The retry policy the CLI builds:
`ExponentialBackoff::builder().build_with_max_retries(3)`. -/
structure RetryPolicy where
  maxRetries : Nat
  exponentialBackoff : Bool
  deriving DecidableEq, Repr

/-- An HTTP client, described by the retry middleware wrapped around it
(`none` = plain client, `some policy` = `RetryTransientMiddleware` with
that policy, which resends a request on transient failure regardless of
its method). -/
structure HttpClient where
  retryMiddleware : Option RetryPolicy
  deriving DecidableEq, Repr

/-- `get_retry_client` (client.rs:128-133): a client wrapped in
`RetryTransientMiddleware` with exponential backoff capped at 3 retries. -/
def get_retry_client : HttpClient :=
  ⟨some ⟨3, true⟩⟩

inductive Method where
  | GET
  | POST
  | DELETE
  deriving DecidableEq, Repr

/-- The request a CLI operation sends: method, path relative to the API
url, and the client it is sent through. -/
structure ClientRequest where
  method : Method
  path : String
  client : HttpClient
  deriving DecidableEq, Repr

/-- `get_deployment_meta` (client.rs:110-126): GET `/projects/{project}`;
its callers (`status`, `logs`, and the poll loop in `deploy`) all pass it
the retry client. -/
def get_deployment_meta_request (project : String) : ClientRequest :=
  ⟨.GET, "/projects/" ++ project, get_retry_client⟩

/-- `delete` (client.rs:43-63): DELETE `/projects/{project}` through the
retry client. -/
def delete_request (project : String) : ClientRequest :=
  ⟨.DELETE, "/projects/" ++ project, get_retry_client⟩

/-- The initial POST of `deploy` (client.rs:135-162): POST
`/projects/{project}` through the client returned by `get_retry_client`. -/
def deploy_request (project : String) : ClientRequest :=
  ⟨.POST, "/projects/" ++ project, get_retry_client⟩

/-- `secrets` (client.rs:186-209): POST to
`write!(api_url, "/projects/{}/secrets/", project)` — note the trailing
slash in the format string — through the retry client. -/
def secrets_request (project : String) : ClientRequest :=
  ⟨.POST, "/projects/" ++ project ++ "/secrets/", get_retry_client⟩

/-- The loop guard of `deploy` (client.rs:168-171):
`matches!(state, DeploymentStateMeta::Deployed | DeploymentStateMeta::Error(_))`. -/
def deployPollDone (s : DeploymentStateMeta) : Bool :=
  match s with
  | .Deployed => true
  | .Error _ => true
  | _ => false

/-- The poll loop of `deploy` (client.rs:164-183): starting from the meta
returned by the POST, while the state is neither `Deployed` nor
`Error(_)` the CLI sleeps and re-fetches the meta; when the loop exits it
reports the final state.  `polls` is the sequence of metas successive
GETs observe; `none` models the loop never exiting because no polled
meta ever reaches one of the two exit states. -/
def deploy_poll : DeploymentMeta → List DeploymentMeta → Option DeploymentStateMeta
  | m, [] => if deployPollDone m.state then some m.state else none
  | m, m2 :: rest =>
      if deployPollDone m.state then some m.state else deploy_poll m2 rest

/-! ## API surface (src/api/src/lib.rs) -/

/-- `status` (lib.rs:51-54): the handler takes no request data and no
state guard and returns `String::from("Ok")`. -/
def status : String :=
  "Ok"

/-- The errors the API handlers surface.  The Rust `DeploymentApiError`
lives in `shuttle_common`, which is not in the snapshot; the variants are
modelled from the spec's error taxonomy and the variants the handlers in
lib.rs construct (`Internal`, `BadRequest`, and the `NotFound` results of
the manager lookups). -/
inductive DeploymentApiError where
  | NotFound (message : String)
  | BadRequest (message : String)
  | Internal (message : String)
  | ProjectAlreadyExists (message : String)
  deriving DecidableEq, Repr

/-- Modelled from the spec's error taxonomy: `NotFound` is HTTP 404,
`Internal{message}` is HTTP 500, bad requests and `ProjectExists` are
HTTP 400. -/
def DeploymentApiError.httpStatus : DeploymentApiError → Nat
  | .NotFound _ => 404
  | .BadRequest _ => 400
  | .Internal _ => 500
  | .ProjectAlreadyExists _ => 400

/-- The deployment manager's record store, keyed by `DeploymentId`
(an opaque 128-bit id, embedded as `Nat`). -/
def Deployments : Type :=
  Nat → Option DeploymentMeta

/-- Modelled from the spec: the manager operation `get_by_id(id) →
DeploymentMeta | NotFound` (`DeploymentSystem::get_deployment`; the
api crate's deployment.rs is declared in lib.rs but absent from the
snapshot). -/
def get_deployment (ds : Deployments) (id : Nat) :
    Except DeploymentApiError DeploymentMeta :=
  match ds id with
  | some m => .ok m
  | none => .error (.NotFound "deployment not found")

/-- Modelled from the spec: the manager operation `kill_by_id(id) →
DeploymentMeta | NotFound` — kills the deployment and returns its
last-observed meta, `NotFound` when no record exists.  The second
component records the ids actually killed, so that the handler theorem
can state that exactly one kill happens. -/
def kill_deployment (ds : Deployments) (id : Nat) :
    Except DeploymentApiError (DeploymentMeta × List Nat) :=
  match ds id with
  | some m => .ok (m, [id])
  | none => .error (.NotFound "deployment not found")

/-- `delete_deployment` (lib.rs:72-83): fetches the deployment once
(`get_deployment`, propagating its error), then kills it
(`kill_deployment`) and returns the killed deployment's meta. -/
def delete_deployment (ds : Deployments) (id : Nat) :
    Except DeploymentApiError (DeploymentMeta × List Nat) :=
  match get_deployment ds id with
  | .error e => .error e
  | .ok _deployment => kill_deployment ds id

/-- The mounted path of the secrets endpoint: lib.rs mounts the routes at
`"/projects"` and `project_secrets` is declared with
`#[post("/<project_name>/secrets")]`. -/
def api_project_secrets_route (project : String) : String :=
  "/projects/" ++ project ++ "/secrets"

/-- The `for (key, value) in map.iter()` loop of `project_secrets`
(lib.rs:158-163): each `conn.set_secret(key, value)` either fails — the
handler maps the error to `BadRequest` and aborts — or succeeds; when
the whole loop runs, the performed writes are the pairs in order.
`setErr` is the oracle for each write's failure (its error message, if
any). -/
def runSets (setErr : String → String → Option String) :
    List (String × String) →
    Except DeploymentApiError (List (String × String))
  | [] => .ok []
  | (k, v) :: rest =>
    match setErr k v with
    | some e => .error (.BadRequest e)
    | none =>
      match runSets setErr rest with
      | .error e => .error e
      | .ok ws => .ok ((k, v) :: ws)

/-- `project_secrets` (lib.rs:138-167): fetch the project's current
deployment meta (propagating its error); when it carries no
`database_deployment`, skip the `if let` body entirely and return the
meta; otherwise connect to the database's private connection string —
a connection error is mapped to `Internal(e.to_string())` and
propagated — then set each secret in turn.  `lookup` is the result of
`get_deployment_for_project`, `connect` the outcome of
`sqlx::PgPool::connect` on a given connection string.  The result pairs
the returned meta with the list of secret writes performed. -/
def project_secrets (lookup : Except DeploymentApiError DeploymentMeta)
    (connect : String → Except String Unit)
    (setErr : String → String → Option String)
    (secrets : List (String × String)) :
    Except DeploymentApiError (DeploymentMeta × List (String × String)) :=
  match lookup with
  | .error e => .error e
  | .ok deployment =>
    match deployment.database_deployment with
    | none => .ok (deployment, [])
    | some info =>
      match connect (connection_string_private info) with
      | .error e => .error (.Internal e)
      | .ok _ =>
        match runSets setErr secrets with
        | .error e => .error e
        | .ok writes => .ok (deployment, writes)

/-! ## Project state (src/common/src/models/project.rs) -/

/-- The project `State` enum (project.rs:43-58), payloads included. -/
inductive State where
  | Creating (recreate_count : Nat)
  | Attaching (recreate_count : Nat)
  | Recreating (recreate_count : Nat)
  | Starting (restart_count : Nat)
  | Restarting (restart_count : Nat)
  | Started
  | Ready
  | Stopping
  | Stopped
  | Rebooting
  | Destroying
  | Destroyed
  | Errored (message : String)
  | Deleted
  deriving DecidableEq, Repr

/-- `impl PartialEq for State` (project.rs:60-79): a `matches!` over the
pair that lists, for each variant except `Deleted`, the pair of that
variant with itself, all payloads wildcarded. -/
def State.eq (a b : State) : Bool :=
  match a, b with
  | .Creating _, .Creating _ => true
  | .Attaching _, .Attaching _ => true
  | .Recreating _, .Recreating _ => true
  | .Starting _, .Starting _ => true
  | .Restarting _, .Restarting _ => true
  | .Started, .Started => true
  | .Ready, .Ready => true
  | .Stopping, .Stopping => true
  | .Stopped, .Stopped => true
  | .Rebooting, .Rebooting => true
  | .Destroying, .Destroying => true
  | .Destroyed, .Destroyed => true
  | .Errored _, .Errored _ => true
  | _, _ => false

/-- The variant tag of a `State`, forgetting payloads; used to state that
`State.eq` looks at tags only. -/
inductive StateTag where
  | creating
  | attaching
  | recreating
  | starting
  | restarting
  | started
  | ready
  | stopping
  | stopped
  | rebooting
  | destroying
  | destroyed
  | errored
  | deleted
  deriving DecidableEq, Repr

def State.tag : State → StateTag
  | .Creating _ => .creating
  | .Attaching _ => .attaching
  | .Recreating _ => .recreating
  | .Starting _ => .starting
  | .Restarting _ => .restarting
  | .Started => .started
  | .Ready => .ready
  | .Stopping => .stopping
  | .Stopped => .stopped
  | .Rebooting => .rebooting
  | .Destroying => .destroying
  | .Destroyed => .destroyed
  | .Errored _ => .errored
  | .Deleted => .deleted

/-! ## Secret store (src/service/src/secrets.rs) -/

/-- Character class `[_a-zA-Z]`, the first atom of the key pattern. -/
def keyStartClass (c : Char) : Bool :=
  c = '_' || ('a' ≤ c && c ≤ 'z') || ('A' ≤ c && c ≤ 'Z')

/-- Character class `[_a-zA-Z0-9]`, the starred atom of the key pattern. -/
def keyContClass (c : Char) : Bool :=
  keyStartClass c || ('0' ≤ c && c ≤ '9')

/-- A minimal regular-expression syntax, enough for the secret-key
pattern: character classes, concatenation, Kleene star. -/
inductive Regex where
  | cls (p : Char → Bool)
  | cat (a b : Regex)
  | star (a : Regex)

/-- Standard matching semantics for `Regex`. -/
inductive RMatch : Regex → List Char → Prop where
  | cls {p : Char → Bool} {c : Char} : p c = true → RMatch (.cls p) [c]
  | cat {a b : Regex} {xs ys : List Char} :
      RMatch a xs → RMatch b ys → RMatch (.cat a b) (xs ++ ys)
  | starNil {a : Regex} : RMatch (.star a) []
  | starCons {a : Regex} {xs ys : List Char} :
      RMatch a xs → RMatch (.star a) ys → RMatch (.star a) (xs ++ ys)

/-- The pattern `[_a-zA-Z][_a-zA-Z0-9]*` of `VALID_KEY`
(secrets.rs:11). -/
def VALID_KEY : Regex :=
  .cat (.cls keyStartClass) (.star (.cls keyContClass))

/-- Rust's unanchored `Regex::is_match`: some substring of the haystack
matches the pattern. -/
def regexIsMatch (r : Regex) (s : String) : Prop :=
  ∃ pre mid post : List Char, s.data = pre ++ mid ++ post ∧ RMatch r mid

/-- `VALID_KEY.is_match(key)` (secrets.rs:13), computed: the unanchored
pattern `[_a-zA-Z][_a-zA-Z0-9]*` matches exactly when some character of
the key is an ASCII letter or underscore (the theorem
`VALID_KEY_is_match_iff` below proves this equal to `regexIsMatch
VALID_KEY`). -/
def VALID_KEY_is_match (key : String) : Bool :=
  key.data.any keyStartClass

/-- Rust's `str::to_lowercase`, embedded as per-character lowercasing
(the claims only concern ASCII case, where the two coincide). -/
def to_lowercase (s : String) : String :=
  ⟨s.data.map Char.toLower⟩

/-- `check_and_lower_secret_key` (secrets.rs:9-14):
`VALID_KEY.is_match(key).then(|| key.to_lowercase())`. -/
def check_and_lower_secret_key (key : String) : Option String :=
  if VALID_KEY_is_match key then some (to_lowercase key) else none

/-- The secrets table, keyed by the `key` column (which `ON CONFLICT
(key)` treats as unique). -/
def Db : Type :=
  String → Option String

/-- The Postgres `SET_QUERY` (secrets.rs:58-59): `INSERT INTO secrets
(key, value) VALUES ($1, $2) ON CONFLICT (key) DO UPDATE SET value = $2`
— insert, overwriting the value on key conflict. -/
def runSet (db : Db) (key value : String) : Db :=
  fun k => if k = key then some value else db k

/-- The Postgres `GET_QUERY` (secrets.rs:57): `SELECT value FROM secrets
WHERE key = $1`; `fetch_one(..).ok()` yields the stored value or `None`
when no row exists. -/
def runGet (db : Db) (key : String) : Option String :=
  db key

/-- `SecretStore::set_secret` (secrets.rs:47-52): lower and check the
key; when it is rejected the query never runs, otherwise run `SET_QUERY`
with the lowered key. -/
def set_secret (db : Db) (key val : String) : Db :=
  match check_and_lower_secret_key key with
  | some k => runSet db k val
  | none => db

/-- `SecretStore::get_secret` (secrets.rs:37-43): lower and check the
key (`None` when rejected), then run `GET_QUERY` with the lowered key. -/
def get_secret (db : Db) (key : String) : Option String :=
  match check_and_lower_secret_key key with
  | some k => runGet db k
  | none => none

/-- The empty secrets table. -/
def emptyDb : Db :=
  fun _ => none

/-! ## Provisioner error (src/provisioner/src/error.rs) -/

/-- The provisioner `Error` enum (error.rs:9-34); each variant's payload
is embedded as the string it displays as. -/
inductive Error where
  | CreateRole (inner : String)
  | UpdateRole (inner : String)
  | CreateDB (inner : String)
  | UnexpectedSqlx (inner : String)
  | UnexpectedMongodb (inner : String)
  | CreateRDSInstance (inner : String)
  | DescribeRDSInstance (inner : String)
  | Plain (inner : String)
  deriving DecidableEq, Repr

/-- The `thiserror` display strings of the provisioner `Error` variants
(the `#[error(..)]` attributes, error.rs:11-33): the specific failure
causes, which differ between variants. -/
def Error.display : Error → String
  | .CreateRole _ => "failed to create role"
  | .UpdateRole _ => "failed to update role"
  | .CreateDB _ => "failed to create DB"
  | .UnexpectedSqlx _ => "unexpected sqlx error"
  | .UnexpectedMongodb _ => "unexpected mongodb error"
  | .CreateRDSInstance _ => "failed to create RDS instance"
  | .DescribeRDSInstance _ => "failed to get description of RDS instance"
  | .Plain _ => "plain error"

/-- gRPC status codes (the ones relevant here; `tonic::Code`). -/
inductive GrpcCode where
  | ok
  | invalidArgument
  | notFound
  | internal
  deriving DecidableEq, Repr

/-- A `tonic::Status`: a code plus a message. -/
structure Status where
  code : GrpcCode
  message : String
  deriving DecidableEq, Repr

/-- `impl From<Error> for Status` (error.rs:38-43): logs the error, then
returns `Status::internal("failed to provision a database")` — the
incoming error value is otherwise discarded. -/
def Status.fromError (_e : Error) : Status :=
  ⟨.internal, "failed to provision a database"⟩

/-! ## Sample values for the concrete witnesses -/

/-- A concrete deployment meta for the project `hello`, with no
provisioned database. -/
def sampleMeta : DeploymentMeta :=
  ⟨7, "hello", .Queued, none, "hello.test.shuttleapp.rs", none, [], none,
    "2022-04-01T00:00:00Z"⟩

/-- Concrete connection info of a provisioned database. -/
def sampleDbInfo : DatabaseReadyInfo :=
  ⟨"postgres", "dbuser", "dbpass", "hello", 5432, "10.0.0.5",
    "db.example.com"⟩

/-- A concrete deployment meta whose deployment carries a provisioned
database. -/
def sampleMetaDb : DeploymentMeta :=
  ⟨8, "hello", .Deployed, none, "hello.test.shuttleapp.rs", none, [],
    some sampleDbInfo, "2022-04-01T00:00:00Z"⟩

/-! ## Theorems -/

/-- Claim C10: GET `/status` always returns exactly the string `"Ok"`:
the handler takes no request data and no state guard, so its result is
this constant for every request and independently of any system state. -/
theorem C10_status_ok : status = "Ok" :=
  rfl

/-- Claim C9: converting any provisioner `Error` into a gRPC `Status`
yields the same result — an internal status with the fixed message
`"failed to provision a database"` — whatever the variant or message, so
the specific failure cause (whose display strings do differ between
variants) is never observable in the returned status. -/
theorem C9_provision_status_uniform :
    (∀ e1 e2 : Error, Status.fromError e1 = Status.fromError e2)
    ∧ (∀ e : Error,
        Status.fromError e = ⟨.internal, "failed to provision a database"⟩)
    ∧ Error.display (.CreateRole "x") ≠ Error.display (.CreateDB "x") := by
  refine ⟨fun e1 e2 => rfl, fun e => rfl, by decide⟩

/-- `State.eq` is the indicator of tag equality, except that the
`deleted` tag never compares equal. -/
theorem State.eq_eq_tag (a b : State) :
    State.eq a b = ((a.tag == b.tag) && !(a.tag == .deleted)) := by
  cases a <;> cases b <;> rfl

/-- Claim C7: equality on the project `State` enum compares only the
variant tag and ignores payloads — two `Errored` values with different
messages compare equal, two `Creating` values with different recreate
counts compare equal — and `State::Deleted` does not compare equal to
itself, so the relation is not reflexive. -/
theorem C7_state_partial_eq :
    (∀ a b a2 b2 : State,
        a.tag = a2.tag → b.tag = b2.tag → State.eq a b = State.eq a2 b2)
    ∧ (∀ m1 m2 : String, State.eq (.Errored m1) (.Errored m2) = true)
    ∧ (∀ c1 c2 : Nat, State.eq (.Creating c1) (.Creating c2) = true)
    ∧ State.eq .Deleted .Deleted = false
    ∧ ¬ (∀ s : State, State.eq s s = true) := by
  refine ⟨?_, fun m1 m2 => rfl, fun c1 c2 => rfl, rfl, ?_⟩
  · intro a b a2 b2 ha hb
    rw [State.eq_eq_tag, State.eq_eq_tag, ha, hb]
  · intro h
    exact absurd (h .Deleted) (by decide)

/-- Claim C2, corrected part: the CLI builds every request — the GETs of
`get_deployment_meta`, the DELETE of `delete`, and also the deploy POST —
from `get_retry_client`, whose exponential-backoff policy is capped at 3
retries. -/
theorem C2_retry_client_all (p : String) :
    (get_deployment_meta_request p).client = get_retry_client
    ∧ (delete_request p).client = get_retry_client
    ∧ (deploy_request p).client = get_retry_client
    ∧ get_retry_client.retryMiddleware = some ⟨3, true⟩ :=
  ⟨rfl, rfl, rfl, rfl⟩

/-- Claim C2, counterexample: the claim says the CLI does not blindly
retry POST `/projects/{p}`, yet the deploy POST for the project `hello`
is sent through the transient-retry middleware (exponential backoff,
cap 3) like every other request, so it is resent on transient failure
without regard to the DeploymentId the earlier attempt created. -/
theorem C2_deploy_post_is_retried :
    (deploy_request "hello").method = Method.POST
    ∧ (deploy_request "hello").path = "/projects/hello"
    ∧ (deploy_request "hello").client.retryMiddleware ≠ none := by
  decide

/-- Claim C5: the CLI `secrets` command POSTs to
`/projects/hello/secrets/` — with a trailing slash — while the API
serves the secrets endpoint at `/projects/hello/secrets`, so the path
the CLI sends is not the path the API serves. -/
theorem C5_secrets_path_mismatch :
    (secrets_request "hello").method = Method.POST
    ∧ (secrets_request "hello").path = "/projects/hello/secrets/"
    ∧ api_project_secrets_route "hello" = "/projects/hello/secrets"
    ∧ (secrets_request "hello").path ≠ api_project_secrets_route "hello" := by
  decide

/-- Claim C4: DELETE `/projects/{project}/deployments/{id}` behaves as a
single kill — when no record exists for the id it returns `NotFound`
(HTTP 404), and when a record exists it kills that deployment exactly
once and returns its meta. -/
theorem C4_delete_deployment (ds : Deployments) (id : Nat) :
    (ds id = none →
      delete_deployment ds id = .error (.NotFound "deployment not found")
      ∧ DeploymentApiError.httpStatus (.NotFound "deployment not found") = 404)
    ∧ (∀ m : DeploymentMeta,
        ds id = some m → delete_deployment ds id = .ok (m, [id])) := by
  constructor
  · intro h
    exact ⟨by simp [delete_deployment, get_deployment, kill_deployment, h], rfl⟩
  · intro m h
    simp [delete_deployment, get_deployment, kill_deployment, h]

/-- Claim C3: when the project's current deployment has no provisioned
database, POST `/projects/{project}/secrets` is a no-op success — it
performs no secret write and returns the current deployment meta
unchanged. -/
theorem C3_secrets_no_database (connect : String → Except String Unit)
    (setErr : String → String → Option String)
    (secrets : List (String × String)) (meta : DeploymentMeta)
    (hdb : meta.database_deployment = none) :
    project_secrets (.ok meta) connect setErr secrets = .ok (meta, []) := by
  simp [project_secrets, hdb]

/-- Witness for C3 at a concrete input: a deployment without a database,
a connection oracle that would succeed, and one pending secret. -/
theorem C3_witness :
    project_secrets (.ok sampleMeta) (fun _ => .ok ()) (fun _ _ => none)
      [("MY_API_KEY", "the contents of my API key")] = .ok (sampleMeta, []) :=
  C3_secrets_no_database _ _ _ _ rfl

/-- Claim C6: on the synchronous secrets endpoint, a failure to connect
to the project's database propagates directly to the caller as
`Internal{message}` (HTTP 500) carrying the connection error's message. -/
theorem C6_secrets_connect_error (connect : String → Except String Unit)
    (setErr : String → String → Option String)
    (secrets : List (String × String)) (meta : DeploymentMeta)
    (info : DatabaseReadyInfo) (e : String)
    (hdb : meta.database_deployment = some info)
    (hconn : connect (connection_string_private info) = .error e) :
    project_secrets (.ok meta) connect setErr secrets = .error (.Internal e)
    ∧ DeploymentApiError.httpStatus (.Internal e) = 500 := by
  exact ⟨by simp [project_secrets, hdb, hconn], rfl⟩

/-- Witness for C6 at a concrete input: a deployment with a provisioned
database and a connection attempt that fails. -/
theorem C6_witness :
    project_secrets (.ok sampleMetaDb) (fun _ => .error "connection refused")
      (fun _ _ => none) [] = .error (.Internal "connection refused")
    ∧ DeploymentApiError.httpStatus (.Internal "connection refused") = 500 :=
  C6_secrets_connect_error _ _ _ _ _ _ rfl rfl

/-- The loop guard accepts exactly the states `Deployed` and
`Error(_)`. -/
theorem deployPollDone_iff (s : DeploymentStateMeta) :
    deployPollDone s = true ↔
      s = .Deployed ∨ ∃ e, s = .Error e := by
  cases s <;> simp [deployPollDone]

/-- The loop guard rejects exactly the states other than `Deployed` and
`Error(_)`. -/
theorem deployPollDone_false_iff (s : DeploymentStateMeta) :
    deployPollDone s = false ↔
      s ≠ .Deployed ∧ ∀ e, s ≠ .Error e := by
  cases s <;> simp [deployPollDone]

/-- The poll loop runs forever exactly when no observed meta is in an
exit state. -/
theorem deploy_poll_none_iff (first : DeploymentMeta)
    (rest : List DeploymentMeta) :
    deploy_poll first rest = none ↔
      ∀ m ∈ first :: rest, deployPollDone m.state = false := by
  induction rest generalizing first with
  | nil => cases hdone : deployPollDone first.state <;>
      simp [deploy_poll, hdone]
  | cons m2 rest ih =>
    cases hdone : deployPollDone first.state <;>
      simp [deploy_poll, hdone, ih]

/-- When the poll loop exits, the state it reports passes the loop
guard. -/
theorem deploy_poll_some_done (first : DeploymentMeta)
    (rest : List DeploymentMeta) (s : DeploymentStateMeta)
    (hs : deploy_poll first rest = some s) :
    deployPollDone s = true := by
  induction rest generalizing first with
  | nil =>
    cases hdone : deployPollDone first.state
    · simp [deploy_poll, hdone] at hs
    · simp [deploy_poll, hdone] at hs
      exact hs ▸ hdone
  | cons m2 rest ih =>
    cases hdone : deployPollDone first.state
    · simp [deploy_poll, hdone] at hs
      exact ih m2 hs
    · simp [deploy_poll, hdone] at hs
      exact hs ▸ hdone

/-- Claim C1: the CLI deploy operation polls GET `/projects/{p}` and
returns exactly when the observed deployment state is `Deployed` or
`Error`: for every sequence of polled metas, any state it finally
reports is one of these two, and it keeps polling (returns nothing)
precisely while every observed state is some other state. -/
theorem C1_deploy_poll (first : DeploymentMeta)
    (rest : List DeploymentMeta) :
    (∀ s, deploy_poll first rest = some s →
      s = .Deployed ∨ ∃ e, s = .Error e)
    ∧ (deploy_poll first rest = none ↔
        ∀ m ∈ first :: rest,
          m.state ≠ .Deployed ∧ ∀ e, m.state ≠ .Error e) := by
  constructor
  · intro s hs
    exact (deployPollDone_iff s).mp (deploy_poll_some_done first rest s hs)
  · rw [deploy_poll_none_iff]
    simp only [deployPollDone_false_iff]

/-- The unanchored match of `[_a-zA-Z][_a-zA-Z0-9]*` against a string
succeeds exactly when some character of the string is an ASCII letter or
underscore. -/
theorem VALID_KEY_is_match_iff (s : String) :
    VALID_KEY_is_match s = true ↔ regexIsMatch VALID_KEY s := by
  constructor
  · intro h
    rcases List.any_eq_true.mp h with ⟨c, hc, hclass⟩
    rcases List.append_of_mem hc with ⟨pre, post, hsplit⟩
    refine ⟨pre, [c], post, by simpa using hsplit, ?_⟩
    have hcat : RMatch VALID_KEY ([c] ++ []) :=
      RMatch.cat (RMatch.cls hclass) RMatch.starNil
    simpa using hcat
  · rintro ⟨pre, mid, post, hsplit, hmatch⟩
    cases hmatch with
    | cat hstart hstar =>
      cases hstart with
      | cls hclass =>
        refine List.any_eq_true.mpr ⟨_, ?_, hclass⟩
        rw [hsplit]
        simp

/-- Claim C8: for every key the validator accepts and every value, a set
followed by a get on the store returns the value; both operations
lowercase the key (set runs the overwriting `SET_QUERY` at the lowered
key, get runs `GET_QUERY` at the lowered key), so two accepted keys
differing only in ASCII case address the same secret; and the validator
accepts exactly the keys containing an ASCII letter or underscore, the
unanchored-match semantics of `[_a-zA-Z][_a-zA-Z0-9]*`. -/
theorem C8_secret_roundtrip (db : Db) (k k2 v : String)
    (hk : VALID_KEY_is_match k = true)
    (hk2 : VALID_KEY_is_match k2 = true)
    (hcase : to_lowercase k = to_lowercase k2) :
    get_secret (set_secret db k v) k = some v
    ∧ get_secret (set_secret db k v) k2 = some v
    ∧ set_secret db k v = runSet db (to_lowercase k) v
    ∧ get_secret db k = runGet db (to_lowercase k)
    ∧ (∀ s : String, VALID_KEY_is_match s = true ↔ regexIsMatch VALID_KEY s) := by
  refine ⟨?_, ?_, ?_, ?_, VALID_KEY_is_match_iff⟩
  · simp [get_secret, set_secret, check_and_lower_secret_key, hk,
      runSet, runGet]
  · simp [get_secret, set_secret, check_and_lower_secret_key, hk, hk2,
      ← hcase, runSet, runGet]
  · simp [set_secret, check_and_lower_secret_key, hk]
  · simp [get_secret, check_and_lower_secret_key, hk]

/-- Witness for C8 at a concrete input: setting `MY_API_KEY` and reading
it back — also through the case variant `my_api_key` — yields the stored
value. -/
theorem C8_witness :
    get_secret (set_secret emptyDb "MY_API_KEY" "s3cret") "MY_API_KEY"
      = some "s3cret"
    ∧ get_secret (set_secret emptyDb "MY_API_KEY" "s3cret") "my_api_key"
      = some "s3cret"
    ∧ set_secret emptyDb "MY_API_KEY" "s3cret"
      = runSet emptyDb (to_lowercase "MY_API_KEY") "s3cret"
    ∧ get_secret emptyDb "MY_API_KEY" = runGet emptyDb (to_lowercase "MY_API_KEY")
    ∧ (∀ s : String, VALID_KEY_is_match s = true ↔ regexIsMatch VALID_KEY s) :=
  C8_secret_roundtrip emptyDb "MY_API_KEY" "my_api_key" "s3cret"
    (by decide) (by decide) (by decide)

end Shuttle
